import Mathlib

/-!
Verification of the town-to-door order-assignment core.

The definitions below are a shallow embedding of the repository's code:
the `accept-order` and `reject-order` edge functions, the checkout flow in
`Customer.tsx`, the `reduce_product_stock`, `assign_delivery_person`,
`trigger_assign_delivery` and `log_delivery_action` database functions, and
the read-side `fetchOrders` query of the courier screen.  Database tables
are lists of rows; machine timestamps are natural numbers (milliseconds);
monetary amounts are integers.
-/

namespace TownToDoor

/-- The `order_status` enumeration after migration 20251017. -/
inductive OrderStatus
  | pending
  | confirmed
  | ready_for_pickup
  | assigned
  | picked_up
  | delivering
  | delivered
  | completed
  | cancelled
deriving DecidableEq, Repr

/-- The text of a status value, as Postgres renders the enum. -/
def statusText : OrderStatus → String
  | .pending => "pending"
  | .confirmed => "confirmed"
  | .ready_for_pickup => "ready_for_pickup"
  | .assigned => "assigned"
  | .picked_up => "picked_up"
  | .delivering => "delivering"
  | .delivered => "delivered"
  | .completed => "completed"
  | .cancelled => "cancelled"

/-- A row of the `orders` table (the columns the assignment core touches). -/
structure Order where
  id : Nat
  customer_id : Nat
  store_id : Nat
  delivery_person_id : Option Nat
  status : OrderStatus
  total_amount : Int
  updated_at : Nat
deriving DecidableEq, Repr

/-- A row of the `order_rejections` table (migration 20251017). -/
structure Rejection where
  order_id : Nat
  delivery_person_id : Nat
  reason : String
  rejected_at : Nat
  reofferable_after : Nat
deriving DecidableEq, Repr

/-- A row of the `delivery_history` audit table. -/
structure HistoryRow where
  order_id : Nat
  delivery_person_id : Option Nat
  action : String
  note : String
deriving DecidableEq, Repr

/-- The slice of database state the two edge functions read and write:
`orders`, the `profiles` full-name map, and `order_rejections`. -/
structure DB where
  orders : List Order
  profiles : List (Nat × String)
  rejections : List Rejection
deriving Repr

/-- `profiles!…(full_name)` join with a JS `|| dflt` fallback. -/
def fullNameOr (profiles : List (Nat × String)) (uid : Nat) (dflt : String) : String :=
  match profiles.find? (fun p => p.1 = uid) with
  | some p => p.2
  | none => dflt

/-- `.from('orders').select(…).eq('id', orderId).single()`. -/
def findOrder (orders : List Order) (orderId : Nat) : Option Order :=
  orders.find? (fun o => o.id = orderId)

/-! ### The claim conditional update (`accept-order/index.ts`, lines 37-47)

`update({delivery_person_id: user.id, status: 'assigned'})
  .eq('id', orderId).eq('status', 'ready_for_pickup')
  .is('delivery_person_id', null)`.
The `update_orders_updated_at` trigger (migration 20251010) stamps
`updated_at = now()` on every update. -/

/-- The row filter of the conditional claim update. -/
def claimMatches (orderId : Nat) (o : Order) : Bool :=
  o.id = orderId && o.status = OrderStatus.ready_for_pickup
    && o.delivery_person_id = none

/-- The effect of the claim update on a matched row. -/
def claimApply (caller now : Nat) (o : Order) : Order :=
  { o with delivery_person_id := some caller
           status := OrderStatus.assigned
           updated_at := now }

/-- Run the conditional update over the table; return the updated row (if
any row matched) and the new table.  `id` is the primary key, so at most
one row matches; the store applies the filter and the write atomically. -/
def claimUpdate (caller orderId now : Nat) : List Order → Option Order × List Order
  | [] => (none, [])
  | o :: rest =>
    if claimMatches orderId o then
      (some (claimApply caller now o), claimApply caller now o :: rest)
    else
      let r := claimUpdate caller orderId now rest
      (r.1, o :: r.2)

/-! ### C1 machinery: a sequence of claims against a single order row. -/

/-- One atomic claim attempt against a single order row: succeeds exactly
when `status = ready_for_pickup` and the courier reference is null. -/
def claimStep (c now : Nat) (o : Order) : Bool × Order :=
  if o.status = OrderStatus.ready_for_pickup && o.delivery_person_id = none then
    (true, claimApply c now o)
  else
    (false, o)

/-- Apply a sequence of claim attempts `(courier, time)` to an order;
return the final row and the number of successful claims. -/
def runClaims (o : Order) : List (Nat × Nat) → Order × Nat
  | [] => (o, 0)
  | a :: rest =>
    let s := claimStep a.1 a.2 o
    let r := runClaims s.2 rest
    (r.1, (if s.1 then 1 else 0) + r.2)

theorem claimStep_of_assigned (c now : Nat) (o : Order)
    (h : o.delivery_person_id ≠ none) : claimStep c now o = (false, o) := by
  unfold claimStep
  have hb : (o.delivery_person_id = (none : Option Nat) : Bool) = false := by
    simpa using h
  simp [hb]

theorem runClaims_of_assigned (l : List (Nat × Nat)) (o : Order)
    (h : o.delivery_person_id ≠ none) :
    runClaims o l = (o, 0) := by
  induction l with
  | nil => rfl
  | cons a rest ih =>
    unfold runClaims
    rw [claimStep_of_assigned a.1 a.2 o h]
    simp [ih]

theorem runClaims_count_le_one (o : Order) (l : List (Nat × Nat)) :
    (runClaims o l).2 ≤ 1 := by
  induction l generalizing o with
  | nil => simp [runClaims]
  | cons a rest ih =>
    unfold runClaims
    by_cases hc : (o.status = OrderStatus.ready_for_pickup
        && o.delivery_person_id = none) = true
    · have hstep : claimStep a.1 a.2 o = (true, claimApply a.1 a.2 o) := by
        unfold claimStep; simp [hc]
      rw [hstep]
      have hrest : runClaims (claimApply a.1 a.2 o) rest
          = (claimApply a.1 a.2 o, 0) := by
        refine runClaims_of_assigned rest _ ?_
        simp [claimApply]
      simp [hrest]
    · have hstep : claimStep a.1 a.2 o = (false, o) := by
        unfold claimStep; simp [hc]
      rw [hstep]
      simpa using ih o

/-- C1: for every order and every sequence of atomic Claim attempts applied
to it, at most one attempt succeeds; and once the courier reference is set,
no sequence of Claim attempts ever changes it (so it is set at most once,
and every Claim after a successful one fails). -/
theorem claim_at_most_one_winner (o : Order) (l : List (Nat × Nat)) :
    (runClaims o l).2 ≤ 1 ∧
    (∀ x, o.delivery_person_id = some x →
      (runClaims o l).1.delivery_person_id = some x) := by
  refine ⟨runClaims_count_le_one o l, ?_⟩
  intro x hx
  have h : runClaims o l = (o, 0) := by
    refine runClaims_of_assigned l o ?_
    simp [hx]
  rw [h, hx]

/-- Sample order row used to instantiate theorems about claims. -/
def oAssigned : Order :=
  { id := 1, customer_id := 4, store_id := 2, delivery_person_id := some 9
    status := OrderStatus.assigned, total_amount := 120, updated_at := 40 }

theorem claim_at_most_one_winner_witness :
    (runClaims oAssigned [(1, 5), (2, 6), (3, 7)]).2 ≤ 1 ∧
    (runClaims oAssigned [(1, 5), (2, 6), (3, 7)]).1.delivery_person_id = some 9 :=
  ⟨(claim_at_most_one_winner oAssigned [(1, 5), (2, 6), (3, 7)]).1,
   (claim_at_most_one_winner oAssigned [(1, 5), (2, 6), (3, 7)]).2 9 rfl⟩

/-! ### The full accept-order service (`accept-order/index.ts`, lines 37-101). -/

/-- The JSON response of the accept-order endpoint. -/
inductive ClaimResp
  | ok (orderId : Nat) (status : OrderStatus) (courierId : Nat)
      (courierName : String) (assignedAt : Nat)
  | alreadyAssigned (winnerId : Nat) (winnerName : String) (assignedAt : Nat)
  | notFound
deriving DecidableEq, Repr

/-- The HTTP status code of each accept-order response. -/
def ClaimResp.code : ClaimResp → Nat
  | .ok _ _ _ _ _ => 200
  | .alreadyAssigned _ _ _ => 409
  | .notFound => 404

/-- The accept-order handler after authentication: run the conditional
update; if it matched, answer 200 with the updated row; otherwise re-read
the order and answer 409 `OrderAlreadyAssigned` when the row shows a
courier other than the caller, and 404 otherwise. -/
def acceptOrder (db : DB) (caller orderId now : Nat) : ClaimResp × DB :=
  match (claimUpdate caller orderId now db.orders).1 with
  | some o =>
    (.ok o.id o.status caller (fullNameOr db.profiles caller "You") o.updated_at,
     { db with orders := (claimUpdate caller orderId now db.orders).2 })
  | none =>
    match findOrder db.orders orderId with
    | some o =>
      match o.delivery_person_id with
      | some w =>
        if w ≠ caller then
          (.alreadyAssigned w (fullNameOr db.profiles w "Unknown") o.updated_at, db)
        else
          (.notFound, db)
      | none => (.notFound, db)
    | none => (.notFound, db)

theorem claimUpdate_none_of_no_match (caller orderId now : Nat)
    (orders : List Order)
    (h : ∀ o ∈ orders, claimMatches orderId o = false) :
    claimUpdate caller orderId now orders = (none, orders) := by
  induction orders with
  | nil => rfl
  | cons o rest ih =>
    unfold claimUpdate
    rw [h o (by simp)]
    simp only [Bool.false_eq_true, if_false]
    have := ih (fun p hp => h p (by simp [hp]))
    simp [this]

/-- C3: whenever the conditional claim update matches no row, the service
re-reads the order; a re-read showing a courier different from the caller
yields the 409 `OrderAlreadyAssigned` response carrying the winner's id,
display name (profile lookup, defaulting to "Unknown") and the order's
update timestamp; a missing order or one with a null courier yields the
404 not-found response. -/
theorem claim_disambiguation_read (db : DB) (caller orderId now : Nat)
    (hnone : (claimUpdate caller orderId now db.orders).1 = none) :
    (∀ o, findOrder db.orders orderId = some o →
      ∀ w, o.delivery_person_id = some w → w ≠ caller →
        acceptOrder db caller orderId now
          = (.alreadyAssigned w (fullNameOr db.profiles w "Unknown") o.updated_at, db)) ∧
    (findOrder db.orders orderId = none →
      acceptOrder db caller orderId now = (.notFound, db)) ∧
    (∀ o, findOrder db.orders orderId = some o → o.delivery_person_id = none →
      acceptOrder db caller orderId now = (.notFound, db)) := by
  refine ⟨?_, ?_, ?_⟩
  · intro o hfo w hw hne
    unfold acceptOrder
    simp [hnone, hfo, hw, hne]
  · intro hfo
    unfold acceptOrder
    rw [hnone, hfo]
  · intro o hfo hw
    unfold acceptOrder
    simp [hnone, hfo, hw]

/-- Sample database used to instantiate the accept-order theorems: order 1
is already being delivered by courier 2. -/
def dbTaken : DB :=
  { orders := [{ id := 1, customer_id := 4, store_id := 2,
                 delivery_person_id := some 2,
                 status := OrderStatus.delivering, total_amount := 120,
                 updated_at := 40 }]
    profiles := [(2, "Bob"), (3, "Carol")]
    rejections := [] }

theorem claim_disambiguation_read_witness :
    acceptOrder dbTaken 3 1 50
      = (.alreadyAssigned 2 (fullNameOr dbTaken.profiles 2 "Unknown")
          40, dbTaken) :=
  (claim_disambiguation_read dbTaken 3 1 50 (by decide)).1
    { id := 1, customer_id := 4, store_id := 2, delivery_person_id := some 2,
      status := OrderStatus.delivering, total_amount := 120, updated_at := 40 }
    (by decide) 2 rfl (by decide)

/-- C2 counterexample: order 1 of `dbTaken` has status `delivering`
(not `ready_for_pickup`), yet a Claim by courier 3 answers 409
`OrderAlreadyAssigned`, not 404 — refuting "always fails with a 404
response, regardless of whether the courier reference is null or
non-null". -/
theorem claim_nonready_404_cex :
    (∀ o ∈ dbTaken.orders, o.status ≠ OrderStatus.ready_for_pickup) ∧
    (acceptOrder dbTaken 3 1 50).1.code = 409 ∧
    (acceptOrder dbTaken 3 1 50).1.code ≠ 404 := by
  refine ⟨?_, ?_, ?_⟩ <;> decide

theorem findOrder_not_matches (orders : List Order) (orderId : Nat)
    (hall : ∀ p ∈ orders, p.id = orderId → p.status ≠ OrderStatus.ready_for_pickup)
    (p : Order) (hp : p ∈ orders) : claimMatches orderId p = false := by
  unfold claimMatches
  by_cases hid : p.id = orderId
  · have := hall p hp hid
    simp [hid, this]
  · simp [hid]

/-- C2 (amended): a Claim on an order whose status is not
`ready_for_pickup` never succeeds and never mutates the database; it
answers 404 when the order's courier reference is null or is the caller
itself, and 409 `OrderAlreadyAssigned` when the courier reference is
non-null and different from the caller. -/
theorem claim_nonready_always_fails (db : DB) (caller orderId now : Nat)
    (o : Order)
    (hall : ∀ p ∈ db.orders, p.id = orderId → p.status ≠ OrderStatus.ready_for_pickup)
    (hfind : findOrder db.orders orderId = some o) :
    (acceptOrder db caller orderId now).2 = db ∧
    (acceptOrder db caller orderId now).1.code ≠ 200 ∧
    (o.delivery_person_id = none →
      acceptOrder db caller orderId now = (.notFound, db)) ∧
    (o.delivery_person_id = some caller →
      acceptOrder db caller orderId now = (.notFound, db)) ∧
    (∀ w, o.delivery_person_id = some w → w ≠ caller →
      acceptOrder db caller orderId now
        = (.alreadyAssigned w (fullNameOr db.profiles w "Unknown") o.updated_at, db)) := by
  have hnone : (claimUpdate caller orderId now db.orders).1 = none := by
    rw [claimUpdate_none_of_no_match caller orderId now db.orders
         (findOrder_not_matches db.orders orderId hall)]
  have hdis := claim_disambiguation_read db caller orderId now hnone
  have hfail : acceptOrder db caller orderId now
      = (.notFound, db) ∨
      ∃ w, acceptOrder db caller orderId now
        = (.alreadyAssigned w (fullNameOr db.profiles w "Unknown") o.updated_at, db) := by
    match hw : o.delivery_person_id with
    | none => exact Or.inl (hdis.2.2 o hfind hw)
    | some w =>
      by_cases hc : w = caller
      · left
        unfold acceptOrder
        simp [hnone, hfind, hw, hc]
      · exact Or.inr ⟨w, hdis.1 o hfind w hw hc⟩
  refine ⟨?_, ?_, ?_, ?_, ?_⟩
  · rcases hfail with h | ⟨w, h⟩ <;> rw [h]
  · rcases hfail with h | ⟨w, h⟩ <;> rw [h] <;> simp [ClaimResp.code]
  · intro hw
    exact hdis.2.2 o hfind hw
  · intro hw
    unfold acceptOrder
    simp [hnone, hfind, hw]
  · intro w hw hne
    exact hdis.1 o hfind w hw hne

theorem claim_nonready_always_fails_witness :
    (acceptOrder dbTaken 3 1 50).2 = dbTaken ∧
    (acceptOrder dbTaken 3 1 50).1.code ≠ 200 := by
  have h := claim_nonready_always_fails dbTaken 3 1 50
    { id := 1, customer_id := 4, store_id := 2, delivery_person_id := some 2,
      status := OrderStatus.delivering, total_amount := 120, updated_at := 40 }
    (by decide) (by decide)
  exact ⟨h.1, h.2.1⟩

/-! ### The courier's available-orders listing (`fetchOrders`, Delivery page).

`supabase.from('orders').select(…).eq('status', 'ready_for_pickup')
  .is('delivery_person_id', null)` — the query has no other filter. -/

/-- The "available orders" query of the courier screen. -/
def fetchAvailableOrders (db : DB) : List Order :=
  db.orders.filter (fun o =>
    o.status = OrderStatus.ready_for_pickup && o.delivery_person_id = none)

/-- The cooldown ledger predicate: a rejection row for the pair whose
`reofferable_after` is still in the future. -/
def hasLiveRejection (rejections : List Rejection) (orderId courier now : Nat) : Bool :=
  rejections.any (fun r =>
    r.order_id = orderId && r.delivery_person_id = courier && now < r.reofferable_after)

/-- Database in which courier 7 declined order 1 at time 0 (cooldown until
1800000 ms = 30 min) while the order is still ready and unassigned. -/
def dbCooldown : DB :=
  { orders := [{ id := 1, customer_id := 4, store_id := 2,
                 delivery_person_id := none,
                 status := OrderStatus.ready_for_pickup, total_amount := 120,
                 updated_at := 0 }]
    profiles := []
    rejections := [{ order_id := 1, delivery_person_id := 7,
                     reason := "Too far", rejected_at := 0,
                     reofferable_after := 1800000 }] }

/-- C4: the read-side cooldown contract is not implemented.  At time 60000
(one minute after courier 7 declined order 1, well inside the 30-minute
window) the order still has a live rejection row for courier 7, yet the
available-orders query — which never consults `order_rejections` — still
returns it, so the listing shown to courier 7 includes the declined
order. -/
theorem cooldown_filter_absent :
    hasLiveRejection dbCooldown.rejections 1 7 60000 = true ∧
    (fetchAvailableOrders dbCooldown).any (fun o => o.id = 1) = true := by
  decide

/-! ### `reduce_product_stock` (migration 20251013).

`UPDATE products SET stock_quantity = stock_quantity - p_quantity
 WHERE id = p_product_id AND stock_quantity >= p_quantity`. -/

/-- The new `stock_quantity` of the targeted product row. -/
def reduce_product_stock (stock_quantity p_quantity : Int) : Int :=
  if p_quantity ≤ stock_quantity then stock_quantity - p_quantity
  else stock_quantity

/-- C6: stock reduction never drives `stock_quantity` below zero — when the
current stock covers the request it is decremented by exactly the request,
and when it does not the row is left unchanged (a no-op, not an error and
not a negative value). -/
theorem reduce_stock_nonneg (stock_quantity p_quantity : Int)
    (h0 : 0 ≤ stock_quantity) :
    0 ≤ reduce_product_stock stock_quantity p_quantity ∧
    (p_quantity ≤ stock_quantity →
      reduce_product_stock stock_quantity p_quantity = stock_quantity - p_quantity) ∧
    (stock_quantity < p_quantity →
      reduce_product_stock stock_quantity p_quantity = stock_quantity) := by
  unfold reduce_product_stock
  split <;> refine ⟨?_, ?_, ?_⟩ <;> omega

theorem reduce_stock_nonneg_witness :
    0 ≤ reduce_product_stock 5 3 ∧
    ((3 : Int) ≤ 5 → reduce_product_stock 5 3 = 5 - 3) ∧
    ((5 : Int) < 3 → reduce_product_stock 5 3 = 5) :=
  reduce_stock_nonneg 5 3 (by decide)

/-! ### The reject-order service (`reject-order/index.ts`).

The handler inserts one `order_rejections` row; the table's
`UNIQUE(order_id, delivery_person_id)` constraint (migration 20251017)
rejects the insert when a row for the pair exists, and the column defaults
stamp `rejected_at = now()` and `reofferable_after = now() + 30 minutes`. -/

/-- The 30-minute cooldown in milliseconds. -/
def cooldownMs : Nat := 30 * 60 * 1000

/-- The `UNIQUE(order_id, delivery_person_id)` conflict test. -/
def rejectionExists (rejections : List Rejection) (orderId courier : Nat) : Bool :=
  rejections.any (fun r => r.order_id = orderId && r.delivery_person_id = courier)

/-- The JSON response of the reject-order endpoint: 200 on success, 500
("Failed to record rejection") when the insert errors. -/
inductive RejectResp
  | ok (orderId rejectedAt : Nat)
  | failed
deriving DecidableEq, Repr

/-- The reject-order handler after authentication: insert one rejection
row, surfacing a conflicting insert as the failure response. -/
def rejectOrder (db : DB) (caller orderId : Nat) (reason : Option String)
    (now : Nat) : RejectResp × DB :=
  if rejectionExists db.rejections orderId caller then
    (.failed, db)
  else
    (.ok orderId now,
     { db with rejections := db.rejections ++
        [{ order_id := orderId, delivery_person_id := caller,
           reason := reason.getD "No reason provided",
           rejected_at := now, reofferable_after := now + cooldownMs }] })

/-- C7: when a rejection row for the (order, courier) pair already exists,
a second Decline by the same courier is rejected as a duplicate conflict:
the response is the failure response and the rejection table is unchanged,
so no second row appears and the original cooldown stands. -/
theorem duplicate_decline_conflict (db : DB) (caller orderId : Nat)
    (reason : Option String) (now : Nat)
    (h : rejectionExists db.rejections orderId caller = true) :
    (rejectOrder db caller orderId reason now).1 = RejectResp.failed ∧
    (rejectOrder db caller orderId reason now).2.rejections = db.rejections := by
  unfold rejectOrder
  simp [h]

theorem duplicate_decline_conflict_witness :
    (rejectOrder dbCooldown 7 1 (some "Busy") 60000).1 = RejectResp.failed ∧
    (rejectOrder dbCooldown 7 1 (some "Busy") 60000).2.rejections
      = dbCooldown.rejections :=
  duplicate_decline_conflict dbCooldown 7 1 (some "Busy") 60000 (by decide)

/-- C8: Decline never touches the `orders` table — the orders (and the
profiles) are identical before and after every reject-order call — and on
a non-duplicate call exactly one rejection row is inserted, while a
duplicate call is the failure outcome with the ledger unchanged. -/
theorem decline_frame_orders (db : DB) (caller orderId : Nat)
    (reason : Option String) (now : Nat) :
    (rejectOrder db caller orderId reason now).2.orders = db.orders ∧
    (rejectOrder db caller orderId reason now).2.profiles = db.profiles ∧
    (((rejectOrder db caller orderId reason now).1 = RejectResp.failed ∧
      (rejectOrder db caller orderId reason now).2.rejections = db.rejections) ∨
     (rejectOrder db caller orderId reason now).2.rejections.length
        = db.rejections.length + 1) := by
  unfold rejectOrder
  by_cases h : rejectionExists db.rejections orderId caller = true
  · simp [h]
  · simp [h]

/-! ### The audit trigger `log_delivery_action` (migration 20251017).

`IF (TG_OP = 'UPDATE' AND OLD.status != NEW.status) THEN INSERT INTO
delivery_history (order_id, delivery_person_id, action, note) VALUES
(NEW.id, NEW.delivery_person_id, 'Status changed to ' || NEW.status,
 'From ' || OLD.status)`. -/

/-- The history row the trigger inserts for a status transition. -/
def auditRow (oldRow newRow : Order) : HistoryRow :=
  { order_id := newRow.id
    delivery_person_id := newRow.delivery_person_id
    action := "Status changed to " ++ statusText newRow.status
    note := "From " ++ statusText oldRow.status }

/-- The `AFTER UPDATE` trigger body, as a function of the old row, the new
row and the audit table. -/
def log_delivery_action (oldRow newRow : Order) (hist : List HistoryRow) :
    List HistoryRow :=
  if oldRow.status ≠ newRow.status then hist ++ [auditRow oldRow newRow]
  else hist

theorem statusText_injective (a b : OrderStatus)
    (h : statusText a = statusText b) : a = b := by
  cases a <;> cases b <;> first | rfl | exact absurd h (by decide)

/-- C9: an order update whose status text changes appends exactly one
audit row — recording the new status, the old status, and the order's
courier reference at the transition — and an update that leaves the
status text unchanged appends none. -/
theorem status_change_audit (oldRow newRow : Order) (hist : List HistoryRow) :
    (statusText oldRow.status ≠ statusText newRow.status →
      log_delivery_action oldRow newRow hist = hist ++ [auditRow oldRow newRow] ∧
      (log_delivery_action oldRow newRow hist).length = hist.length + 1) ∧
    (statusText oldRow.status = statusText newRow.status →
      log_delivery_action oldRow newRow hist = hist) := by
  constructor
  · intro htext
    have hne : oldRow.status ≠ newRow.status := fun he => htext (he ▸ rfl)
    unfold log_delivery_action
    simp [hne]
  · intro htext
    have he : oldRow.status = newRow.status :=
      statusText_injective _ _ htext
    unfold log_delivery_action
    simp [he]

/-- A `ready_for_pickup` order row used to instantiate trigger theorems. -/
def oReady : Order :=
  { id := 1, customer_id := 4, store_id := 2, delivery_person_id := none
    status := OrderStatus.ready_for_pickup, total_amount := 120, updated_at := 0 }

theorem status_change_audit_witness :
    log_delivery_action oReady (claimApply 3 50 oReady) []
        = [auditRow oReady (claimApply 3 50 oReady)] ∧
    (log_delivery_action oReady (claimApply 3 50 oReady) []).length = 0 + 1 :=
  (status_change_audit oReady (claimApply 3 50 oReady) []).1 (by decide)

/-! ### Auto-assignment (`assign_delivery_person`, `trigger_assign_delivery`,
migration 20251013).

The SQL compares enum columns against string literals
(`ur.role = 'delivery'`, `o.status IN ('picked_up', 'in_transit')`).
Postgres first coerces each literal to the column's enum type; a string
that is not one of the enum's labels raises
`invalid input value for enum …`, data-independently, so the statement
errors instead of matching no rows.  The coercion is embedded as a
partial parse of the literal, and the fallible operations return
`Except`. -/

/-- The `app_role` enumeration (migration 20251010). -/
inductive AppRole
  | customer
  | retailer
  | delivery_person
deriving DecidableEq, Repr

/-- A row of the `user_roles` table. -/
structure UserRole where
  user_id : Nat
  role : AppRole
deriving DecidableEq, Repr

/-- Postgres input coercion for `app_role`: only the enum's labels are
accepted. -/
def parseAppRole : String → Option AppRole
  | "customer" => some AppRole.customer
  | "retailer" => some AppRole.retailer
  | "delivery_person" => some AppRole.delivery_person
  | _ => none

/-- Postgres input coercion for `order_status` (labels after migration
20251017). -/
def parseOrderStatus : String → Option OrderStatus
  | "pending" => some OrderStatus.pending
  | "confirmed" => some OrderStatus.confirmed
  | "ready_for_pickup" => some OrderStatus.ready_for_pickup
  | "assigned" => some OrderStatus.assigned
  | "picked_up" => some OrderStatus.picked_up
  | "delivering" => some OrderStatus.delivering
  | "delivered" => some OrderStatus.delivered
  | "completed" => some OrderStatus.completed
  | "cancelled" => some OrderStatus.cancelled
  | _ => none

/-- The correlated subquery: count of this courier's orders whose status
is one of the two (already coerced) status literals. -/
def countActiveOrders (orders : List Order) (uid : Nat) (s1 s2 : OrderStatus) : Nat :=
  (orders.filter (fun o =>
    o.delivery_person_id = some uid && (o.status = s1 || o.status = s2))).length

/-- `ORDER BY (count) ASC LIMIT 1` over the candidate list. -/
def leastLoaded (orders : List Order) (s1 s2 : OrderStatus) :
    List Nat → Option Nat
  | [] => none
  | u :: rest =>
    match leastLoaded orders s1 s2 rest with
    | none => some u
    | some v =>
      if countActiveOrders orders u s1 s2 ≤ countActiveOrders orders v s1 s2 then
        some u
      else some v

/-- `assign_delivery_person`: every enum literal in the statement must
coerce before it can run — `'delivery'` against `app_role` in the WHERE
clause, `'picked_up'` and `'in_transit'` against `order_status` in the
ORDER BY subquery; a failing coercion raises.  Otherwise the least-loaded
matching user is selected (NULL when none matches). -/
def assign_delivery_person (user_roles : List UserRole) (orders : List Order) :
    Except String (Option Nat) :=
  match parseAppRole "delivery" with
  | none => .error "invalid input value for enum app_role: delivery"
  | some roleLit =>
    match parseOrderStatus "picked_up" with
    | none => .error "invalid input value for enum order_status: picked_up"
    | some s1 =>
      match parseOrderStatus "in_transit" with
      | none => .error "invalid input value for enum order_status: in_transit"
      | some s2 =>
        .ok (leastLoaded orders s1 s2
          ((user_roles.filter (fun ur => ur.role = roleLit)).map
            (fun ur => ur.user_id)))

/-- The `BEFORE UPDATE` trigger body `trigger_assign_delivery`: when the
new row has status `confirmed` and a null courier it calls
`assign_delivery_person`; an error propagates out of the trigger and
aborts the whole UPDATE, otherwise the (possibly updated) row is
returned. -/
def trigger_assign_delivery (user_roles : List UserRole) (orders : List Order)
    (newRow : Order) : Except String Order :=
  if newRow.status = OrderStatus.confirmed ∧ newRow.delivery_person_id = none then
    match assign_delivery_person user_roles orders with
    | .error e => .error e
    | .ok (some v) => .ok { newRow with delivery_person_id := some v }
    | .ok none => .ok newRow
  else .ok newRow

/-- Sample `user_roles` table for the C10 counterexample. -/
def usersCex : List UserRole := [{ user_id := 9, role := AppRole.delivery_person }]

/-- Order 1 moving to `confirmed` with a null courier (the trigger's
assignment branch fires). -/
def oConfirmed : Order := { oReady with status := OrderStatus.confirmed }

/-- C10 counterexample: with a delivery_person-role user on file and an
order moving to `confirmed` with a null courier, `assign_delivery_person`
does not return "no courier" — it raises the enum-coercion error — and
the trigger does not return the row with its courier reference left null:
it propagates the error, aborting the UPDATE. -/
theorem auto_assign_null_cex :
    assign_delivery_person usersCex [oAssigned] ≠ Except.ok (none : Option Nat) ∧
    trigger_assign_delivery usersCex [oAssigned] oConfirmed ≠ Except.ok oConfirmed ∧
    trigger_assign_delivery usersCex [oAssigned] oConfirmed
      = Except.error "invalid input value for enum app_role: delivery" := by
  have h1 : assign_delivery_person usersCex [oAssigned]
      = Except.error "invalid input value for enum app_role: delivery" := rfl
  have h2 : trigger_assign_delivery usersCex [oAssigned] oConfirmed
      = Except.error "invalid input value for enum app_role: delivery" := rfl
  refine ⟨?_, ?_, h2⟩
  · rw [h1]
    intro h
    exact Except.noConfusion h
  · rw [h2]
    intro h
    exact Except.noConfusion h

/-- C10 (amended): the automatic assignment path never assigns anyone,
but not by matching no rows — `'delivery'` is not an `app_role` label, so
`assign_delivery_person` raises the invalid-enum-input error for every
database state; through `on_order_confirmed` the error aborts every
update that moves an order to `confirmed` with a null courier, while an
update whose new row is not confirmed-with-null-courier passes through
the trigger's assignment branch untouched. -/
theorem auto_assign_always_errors (user_roles : List UserRole)
    (orders : List Order) (newRow : Order) :
    assign_delivery_person user_roles orders
      = Except.error "invalid input value for enum app_role: delivery" ∧
    (newRow.status = OrderStatus.confirmed ∧ newRow.delivery_person_id = none →
      trigger_assign_delivery user_roles orders newRow
        = Except.error "invalid input value for enum app_role: delivery") ∧
    (¬(newRow.status = OrderStatus.confirmed ∧ newRow.delivery_person_id = none) →
      trigger_assign_delivery user_roles orders newRow = Except.ok newRow) := by
  have hassign : assign_delivery_person user_roles orders
      = Except.error "invalid input value for enum app_role: delivery" := rfl
  refine ⟨hassign, ?_, ?_⟩
  · intro h
    unfold trigger_assign_delivery
    rw [if_pos h, hassign]
  · intro h
    unfold trigger_assign_delivery
    rw [if_neg h]

theorem auto_assign_always_errors_witness :
    trigger_assign_delivery usersCex [oAssigned] oConfirmed
      = Except.error "invalid input value for enum app_role: delivery" ∧
    trigger_assign_delivery usersCex [oAssigned] oReady = Except.ok oReady :=
  ⟨(auto_assign_always_errors usersCex [oAssigned] oConfirmed).2.1 ⟨rfl, rfl⟩,
   (auto_assign_always_errors usersCex [oAssigned] oReady).2.2 (by decide)⟩

/-! ### Checkout (`handleCheckout` in `Customer.tsx`, lines 175-261).

The handler validates the delivery address, groups the cart items by
`products.store_id` (a JS object keyed by store id — keys in order of
first occurrence), and for each vendor group in turn: computes the group
total as Σ quantity × price_snapshot, inserts one `orders` row (status
`pending`, payment stamped paid), inserts its `order_items`, calls
`reduce_product_stock` per line (errors ignored), and deletes that group's
cart rows.  An order-insert or items-insert error throws, aborting the
remaining groups; earlier groups are not rolled back.  The error points
are modelled by two oracles giving, per group index, whether the store
rejects the order insert or the items insert. -/

/-- A row of the `cart_items` table joined with its product (the fields
`handleCheckout` reads). -/
structure CartItem where
  id : Nat
  product_id : Nat
  store_id : Nat
  product_name : String
  quantity : Int
  price_snapshot : Int
deriving DecidableEq, Repr

/-- Insert a key into a JS object's key list: no effect when present,
appended otherwise. -/
def insertKey (ks : List Nat) (s : Nat) : List Nat :=
  if s ∈ ks then ks else ks ++ [s]

/-- The keys of `itemsByStore`, in order of first occurrence. -/
def storeKeys (cart : List CartItem) : List Nat :=
  cart.foldl (fun ks c => insertKey ks c.store_id) []

/-- The vendor groups: each store key with all cart lines of that store. -/
def groupsOf (cart : List CartItem) : List (Nat × List CartItem) :=
  (storeKeys cart).map (fun s => (s, cart.filter (fun c => c.store_id = s)))

/-- `storeItems.reduce((sum, item) => sum + item.quantity * item.price_snapshot, 0)`. -/
def groupTotal (items : List CartItem) : Int :=
  items.foldl (fun sum c => sum + c.quantity * c.price_snapshot) 0

/-- The columns of an `orders` row created at checkout. -/
structure COrder where
  id : Nat
  store_id : Nat
  total_amount : Int
  status : OrderStatus
  payment_status : String
  paid_amount : Option Int
  delivery_address : String
deriving DecidableEq, Repr

/-- A row of `order_items` created at checkout. -/
structure OItem where
  order_id : Nat
  product_id : Nat
  product_name : String
  quantity : Int
  price : Int
deriving DecidableEq, Repr

/-- The mutable state checkout touches: the order/order-item tables (with
a fresh-id counter), product stock, and the customer's cart. -/
structure CheckoutState where
  nextOrderId : Nat
  createdOrders : List COrder
  orderItems : List OItem
  stock : List (Nat × Int)
  cart : List CartItem
deriving DecidableEq, Repr

/-- The `orders` row inserted for one vendor group. -/
def mkCOrder (oid storeId : Nat) (items : List CartItem) (addr : String) : COrder :=
  { id := oid, store_id := storeId, total_amount := groupTotal items
    status := OrderStatus.pending, payment_status := "paid"
    paid_amount := some (groupTotal items), delivery_address := addr }

/-- Apply `reduce_product_stock` to one product row of the stock table. -/
def reduceStockIn (stock : List (Nat × Int)) (pid : Nat) (q : Int) :
    List (Nat × Int) :=
  stock.map (fun p => if p.1 = pid then (p.1, reduce_product_stock p.2 q) else p)

/-- The per-line stock-reduction loop of one vendor group. -/
def reduceGroupStock (items : List CartItem) (stock : List (Nat × Int)) :
    List (Nat × Int) :=
  items.foldl (fun st c => reduceStockIn st c.product_id c.quantity) stock

/-- `.from('cart_items').delete().in('id', cartItemIds)`. -/
def deleteGroupCart (items cart : List CartItem) : List CartItem :=
  cart.filter (fun c => !(decide (c.id ∈ items.map (fun x => x.id))))

/-- The per-vendor-group loop, starting at group index `i`.  `oFail` and
`iFail` give per index whether the store rejects the order insert or the
order-items insert; either throws and ends the loop. -/
def processGroups (oFail iFail : Nat → Bool) (addr : String) :
    Nat → List (Nat × List CartItem) → CheckoutState → Bool × CheckoutState
  | _, [], st => (true, st)
  | i, g :: rest, st =>
    if oFail i then (false, st)
    else
      let newOrder := mkCOrder st.nextOrderId g.1 g.2 addr
      let st1 : CheckoutState :=
        { st with nextOrderId := st.nextOrderId + 1
                  createdOrders := st.createdOrders ++ [newOrder] }
      if iFail i then (false, st1)
      else
        let st2 : CheckoutState :=
          { st1 with
              orderItems := st1.orderItems ++ g.2.map (fun c =>
                { order_id := newOrder.id, product_id := c.product_id
                  product_name := c.product_name, quantity := c.quantity
                  price := c.price_snapshot })
              stock := reduceGroupStock g.2 st1.stock
              cart := deleteGroupCart g.2 st1.cart }
        processGroups oFail iFail addr (i + 1) rest st2

/-- JavaScript whitespace test for `String.prototype.trim` (the common
ASCII cases). -/
def isSpaceChar (c : Char) : Bool :=
  c = ' ' || c = '\t' || c = '\n' || c = '\r'

/-- Length of the address after zod's `.trim()` transform: leading and
trailing whitespace stripped. -/
def trimmedLength (s : String) : Nat :=
  (((s.toList.dropWhile isSpaceChar).reverse.dropWhile isSpaceChar).reverse).length

/-- `checkoutSchema`: the trimmed delivery address has length 5..500. -/
def validAddress (addr : String) : Bool :=
  5 ≤ trimmedLength addr && trimmedLength addr ≤ 500

/-- `handleCheckout`: validate the address before any mutation, then run
the vendor-group loop over the cart's groups. -/
def handleCheckout (oFail iFail : Nat → Bool) (addr : String)
    (st : CheckoutState) : Bool × CheckoutState :=
  if validAddress addr then
    processGroups oFail iFail addr 0 (groupsOf st.cart) st
  else
    (false, st)

/-- The leading vendor groups whose steps all succeed. -/
def succGroups (oFail iFail : Nat → Bool) :
    Nat → List (Nat × List CartItem) → List (Nat × List CartItem)
  | _, [] => []
  | i, g :: rest =>
    if oFail i || iFail i then []
    else g :: succGroups oFail iFail (i + 1) rest

/-- The orders the loop inserts, group by group, until a failure stops it
(a group whose items insert fails still gets its order row). -/
def createdOrdersOf (oFail iFail : Nat → Bool) (addr : String) :
    Nat → Nat → List (Nat × List CartItem) → List COrder
  | _, _, [] => []
  | i, nid, g :: rest =>
    if oFail i then []
    else if iFail i then [mkCOrder nid g.1 g.2 addr]
    else mkCOrder nid g.1 g.2 addr ::
      createdOrdersOf oFail iFail addr (i + 1) (nid + 1) rest

/-- A cart row survives checkout iff no fully-succeeded group contains its
id. -/
def keptBy (P : List (Nat × List CartItem)) (c : CartItem) : Bool :=
  !(P.any (fun g => decide (c.id ∈ g.2.map (fun x => x.id))))

theorem insertKey_mem (ks : List Nat) (t s : Nat) :
    s ∈ insertKey ks t ↔ s ∈ ks ∨ s = t := by
  unfold insertKey
  split
  · rename_i h
    constructor
    · exact Or.inl
    · rintro (hs | rfl)
      · exact hs
      · exact h
  · simp [List.mem_append]

theorem mem_foldl_insertKey (cart : List CartItem) :
    ∀ (acc : List Nat) (s : Nat),
      s ∈ cart.foldl (fun ks c => insertKey ks c.store_id) acc ↔
        s ∈ acc ∨ ∃ c ∈ cart, c.store_id = s := by
  induction cart with
  | nil => intro acc s; simp
  | cons c rest ih =>
    intro acc s
    simp only [List.foldl_cons, ih, insertKey_mem, List.mem_cons]
    constructor
    · rintro ((hs | rfl) | ⟨x, hx, rfl⟩)
      · exact Or.inl hs
      · exact Or.inr ⟨c, Or.inl rfl, rfl⟩
      · exact Or.inr ⟨x, Or.inr hx, rfl⟩
    · rintro (hs | ⟨x, hx | hx, rfl⟩)
      · exact Or.inl (Or.inl hs)
      · subst hx
        exact Or.inl (Or.inr rfl)
      · exact Or.inr ⟨x, hx, rfl⟩

theorem insertKey_nodup (ks : List Nat) (t : Nat) (h : ks.Nodup) :
    (insertKey ks t).Nodup := by
  unfold insertKey
  split
  · exact h
  · rename_i ht
    simp [List.nodup_append, h, ht]

theorem nodup_foldl_insertKey (cart : List CartItem) :
    ∀ acc : List Nat, acc.Nodup →
      (cart.foldl (fun ks c => insertKey ks c.store_id) acc).Nodup := by
  induction cart with
  | nil => intro acc h; simpa using h
  | cons c rest ih => intro acc h; exact ih _ (insertKey_nodup _ _ h)

theorem storeKeys_nodup (cart : List CartItem) : (storeKeys cart).Nodup :=
  nodup_foldl_insertKey cart [] List.nodup_nil

theorem mem_storeKeys_of_mem (cart : List CartItem) (c : CartItem)
    (hc : c ∈ cart) : c.store_id ∈ storeKeys cart :=
  (mem_foldl_insertKey cart [] c.store_id).2 (Or.inr ⟨c, hc, rfl⟩)

theorem processGroups_created (oFail iFail : Nat → Bool) (addr : String)
    (groups : List (Nat × List CartItem)) :
    ∀ (i : Nat) (st : CheckoutState),
      ((processGroups oFail iFail addr i groups st).2).createdOrders
        = st.createdOrders ++ createdOrdersOf oFail iFail addr i st.nextOrderId groups := by
  induction groups with
  | nil => intro i st; simp [processGroups, createdOrdersOf]
  | cons g rest ih =>
    intro i st
    unfold processGroups createdOrdersOf
    by_cases ho : oFail i = true
    · simp [ho]
    · by_cases hi : iFail i = true
      · simp [ho, hi]
      · simp only [ho, hi, Bool.false_eq_true, if_false]
        rw [ih]
        simp

theorem keptBy_cons (g : Nat × List CartItem) (P : List (Nat × List CartItem))
    (c : CartItem) :
    keptBy (g :: P) c
      = (!(decide (c.id ∈ g.2.map (fun x => x.id))) && keptBy P c) := by
  simp [keptBy, List.any_cons, Bool.not_or]

theorem keptBy_nil : keptBy [] = fun _ => true := by
  funext c
  simp [keptBy]

theorem processGroups_cart (oFail iFail : Nat → Bool) (addr : String)
    (groups : List (Nat × List CartItem)) :
    ∀ (i : Nat) (st : CheckoutState),
      ((processGroups oFail iFail addr i groups st).2).cart
        = st.cart.filter (keptBy (succGroups oFail iFail i groups)) := by
  induction groups with
  | nil =>
    intro i st
    simp [processGroups, succGroups, keptBy_nil]
  | cons g rest ih =>
    intro i st
    unfold processGroups succGroups
    by_cases ho : oFail i = true
    · simp [ho, keptBy_nil]
    · by_cases hi : iFail i = true
      · simp [ho, hi, keptBy_nil]
      · simp only [ho, hi, Bool.false_eq_true, if_false, Bool.or_self]
        rw [ih]
        show (deleteGroupCart g.2 st.cart).filter _ = _
        unfold deleteGroupCart
        rw [List.filter_filter]
        refine List.filter_congr ?_
        intro c _
        rw [keptBy_cons, Bool.and_comm]

theorem createdOrders_pairs_take (oFail iFail : Nat → Bool) (addr : String)
    (groups : List (Nat × List CartItem)) :
    ∀ (i nid : Nat),
      ((createdOrdersOf oFail iFail addr i nid groups).take
          (succGroups oFail iFail i groups).length).map
        (fun o => (o.store_id, o.total_amount))
      = (succGroups oFail iFail i groups).map (fun g => (g.1, groupTotal g.2)) := by
  induction groups with
  | nil => intro i nid; simp [createdOrdersOf, succGroups]
  | cons g rest ih =>
    intro i nid
    unfold createdOrdersOf succGroups
    by_cases ho : oFail i = true
    · simp [ho]
    · by_cases hi : iFail i = true
      · simp [ho, hi]
      · simp [ho, hi, mkCOrder, ih]

theorem succGroups_noFail (oFail iFail : Nat → Bool)
    (h : ∀ j, oFail j = false ∧ iFail j = false)
    (groups : List (Nat × List CartItem)) :
    ∀ i, succGroups oFail iFail i groups = groups := by
  induction groups with
  | nil => intro i; rfl
  | cons g rest ih =>
    intro i
    unfold succGroups
    simp [(h i).1, (h i).2, ih]

theorem createdOrders_pairs_noFail (oFail iFail : Nat → Bool) (addr : String)
    (h : ∀ j, oFail j = false ∧ iFail j = false)
    (groups : List (Nat × List CartItem)) :
    ∀ (i nid : Nat),
      (createdOrdersOf oFail iFail addr i nid groups).map
          (fun o => (o.store_id, o.total_amount))
        = groups.map (fun g => (g.1, groupTotal g.2)) := by
  induction groups with
  | nil => intro i nid; rfl
  | cons g rest ih =>
    intro i nid
    unfold createdOrdersOf
    simp [(h i).1, (h i).2, mkCOrder, ih]

theorem processGroups_fst_noFail (oFail iFail : Nat → Bool) (addr : String)
    (h : ∀ j, oFail j = false ∧ iFail j = false)
    (groups : List (Nat × List CartItem)) :
    ∀ (i : Nat) (st : CheckoutState),
      (processGroups oFail iFail addr i groups st).1 = true := by
  induction groups with
  | nil => intro i st; rfl
  | cons g rest ih =>
    intro i st
    unfold processGroups
    simp [(h i).1, (h i).2, ih]

/-- C5: checkout fans a multi-store cart out into one order per store.
Always: the created orders for the fully-succeeded leading vendor groups
carry each group's store and the group's Σ quantity × price_snapshot as
`total_amount`, and the cart keeps exactly the rows of the groups that
did not fully succeed (earlier groups are never rolled back).  With no
store failure: the run succeeds, exactly one order per distinct store is
created (k orders for k stores, stores pairwise distinct), each with its
group total, and the cart ends empty. -/
theorem checkout_fanout (oFail iFail : Nat → Bool) (addr : String)
    (st : CheckoutState) (hv : validAddress addr = true)
    (h0 : st.createdOrders = []) :
    (((handleCheckout oFail iFail addr st).2.createdOrders.take
        (succGroups oFail iFail 0 (groupsOf st.cart)).length).map
          (fun o => (o.store_id, o.total_amount))
      = (succGroups oFail iFail 0 (groupsOf st.cart)).map
          (fun g => (g.1, groupTotal g.2))) ∧
    ((handleCheckout oFail iFail addr st).2.cart
      = st.cart.filter (keptBy (succGroups oFail iFail 0 (groupsOf st.cart)))) ∧
    ((∀ j, oFail j = false ∧ iFail j = false) →
      (handleCheckout oFail iFail addr st).1 = true ∧
      (handleCheckout oFail iFail addr st).2.createdOrders.map
          (fun o => (o.store_id, o.total_amount))
        = (storeKeys st.cart).map
            (fun s => (s, groupTotal (st.cart.filter (fun c => c.store_id = s)))) ∧
      (handleCheckout oFail iFail addr st).2.createdOrders.length
        = (storeKeys st.cart).length ∧
      ((handleCheckout oFail iFail addr st).2.createdOrders.map
          (fun o => o.store_id)).Nodup ∧
      (handleCheckout oFail iFail addr st).2.cart = []) := by
  have hH : handleCheckout oFail iFail addr st
      = processGroups oFail iFail addr 0 (groupsOf st.cart) st := by
    unfold handleCheckout
    simp [hv]
  have hcreated : (handleCheckout oFail iFail addr st).2.createdOrders
      = createdOrdersOf oFail iFail addr 0 st.nextOrderId (groupsOf st.cart) := by
    rw [hH, processGroups_created, h0]
    simp
  refine ⟨?_, ?_, ?_⟩
  · rw [hcreated]
    exact createdOrders_pairs_take oFail iFail addr (groupsOf st.cart) 0 st.nextOrderId
  · rw [hH]
    exact processGroups_cart oFail iFail addr (groupsOf st.cart) 0 st
  · intro hnf
    have hpairs : (handleCheckout oFail iFail addr st).2.createdOrders.map
        (fun o => (o.store_id, o.total_amount))
        = (storeKeys st.cart).map
            (fun s => (s, groupTotal (st.cart.filter (fun c => c.store_id = s)))) := by
      rw [hcreated,
        createdOrders_pairs_noFail oFail iFail addr hnf (groupsOf st.cart) 0 st.nextOrderId]
      simp [groupsOf, List.map_map]
    refine ⟨?_, hpairs, ?_, ?_, ?_⟩
    · rw [hH]
      exact processGroups_fst_noFail oFail iFail addr hnf (groupsOf st.cart) 0 st
    · have hlen := congrArg List.length hpairs
      simpa using hlen
    · have hstores : (handleCheckout oFail iFail addr st).2.createdOrders.map
          (fun o => o.store_id) = storeKeys st.cart := by
        have h1 : (handleCheckout oFail iFail addr st).2.createdOrders.map
            (fun o => o.store_id)
            = ((handleCheckout oFail iFail addr st).2.createdOrders.map
                (fun o => (o.store_id, o.total_amount))).map Prod.fst := by
          simp [List.map_map]
        rw [h1, hpairs, List.map_map]
        show List.map id (storeKeys st.cart) = storeKeys st.cart
        exact List.map_id _
      rw [hstores]
      exact storeKeys_nodup st.cart
    · rw [hH, processGroups_cart oFail iFail addr (groupsOf st.cart) 0 st,
        succGroups_noFail oFail iFail hnf (groupsOf st.cart) 0]
      refine List.filter_eq_nil_iff.2 ?_
      intro c hc
      simp only [keptBy, Bool.not_eq_true', Bool.not_eq_false, List.any_eq_true,
        decide_eq_true_eq]
      refine ⟨(c.store_id, st.cart.filter (fun x => x.store_id = c.store_id)), ?_, ?_⟩
      · exact List.mem_map_of_mem _ (mem_storeKeys_of_mem st.cart c hc)
      · exact List.mem_map_of_mem _ (List.mem_filter.2 ⟨hc, by simp⟩)

/-- A two-store cart used to instantiate the checkout theorem: items 1 and
3 belong to store 100, item 2 to store 200. -/
def cartW : List CartItem :=
  [{ id := 1, product_id := 10, store_id := 100, product_name := "Milk",
     quantity := 2, price_snapshot := 30 },
   { id := 2, product_id := 11, store_id := 200, product_name := "Bread",
     quantity := 1, price_snapshot := 25 },
   { id := 3, product_id := 12, store_id := 100, product_name := "Eggs",
     quantity := 3, price_snapshot := 60 }]

/-- Initial checkout state for the witness. -/
def stW : CheckoutState :=
  { nextOrderId := 1000, createdOrders := [], orderItems := []
    stock := [(10, 5), (11, 5), (12, 5)], cart := cartW }

theorem checkout_fanout_witness :
    (((handleCheckout (fun _ => false) (fun _ => false) "12 High Street" stW).2.createdOrders.take
        (succGroups (fun _ => false) (fun _ => false) 0 (groupsOf stW.cart)).length).map
          (fun o => (o.store_id, o.total_amount))
      = (succGroups (fun _ => false) (fun _ => false) 0 (groupsOf stW.cart)).map
          (fun g => (g.1, groupTotal g.2))) ∧
    ((handleCheckout (fun _ => false) (fun _ => false) "12 High Street" stW).2.cart
      = stW.cart.filter
          (keptBy (succGroups (fun _ => false) (fun _ => false) 0 (groupsOf stW.cart)))) ∧
    ((handleCheckout (fun _ => false) (fun _ => false) "12 High Street" stW).1 = true ∧
      (handleCheckout (fun _ => false) (fun _ => false) "12 High Street" stW).2.createdOrders.map
          (fun o => (o.store_id, o.total_amount))
        = (storeKeys stW.cart).map
            (fun s => (s, groupTotal (stW.cart.filter (fun c => c.store_id = s)))) ∧
      (handleCheckout (fun _ => false) (fun _ => false) "12 High Street" stW).2.createdOrders.length
        = (storeKeys stW.cart).length ∧
      ((handleCheckout (fun _ => false) (fun _ => false) "12 High Street" stW).2.createdOrders.map
          (fun o => o.store_id)).Nodup ∧
      (handleCheckout (fun _ => false) (fun _ => false) "12 High Street" stW).2.cart = []) := by
  have h := checkout_fanout (fun _ => false) (fun _ => false) "12 High Street" stW
    (by decide) rfl
  exact ⟨h.1, h.2.1, h.2.2 (fun j => ⟨rfl, rfl⟩)⟩

end TownToDoor
